import Mathlib

/-!
Verification development for the `dkg.py` content-asset lifecycle engine
(`src/dkg/assets.py`, class `ContentAsset`).

The Python module is shallowly embedded: each method of `ContentAsset`
becomes a pure Lean function over an explicit environment `Env` that models
the responses of the external collaborators (ledger provider and node
network), and over a `Collab` record that models the external library
functions the module imports (RDF canonicalization, Merkle hashing,
metadata generation, keyword/agreement-id derivation).  Side effects on the
collaborators are recorded as an ordered `List Call` trace; Python
exceptions are modelled by the `Except PyErr` monad.

Python integers are modelled as `Int`/`Nat`; Python strings as `String`.
A Python `dict` value accessed only through truthiness-checked
`content.get(key, None)` is modelled as `Option` (with `none` covering both
a missing key and a falsy/empty value, which the source never
distinguishes).
-/

namespace DKG

/-- Raw JSON-LD content, treated as an opaque payload. -/
abbrev JSONLD := String

/-- Input format accepted by `normalize_dataset` (`content_type` argument). -/
inductive ContentType where
  | jsonld
  | nquads
deriving DecidableEq, Repr

/-- Status field of a node-network operation-result response. -/
inductive OperationStatus where
  | pending
  | completed
  | failed
deriving DecidableEq, Repr

/-- Python exceptions that can propagate out of the embedded methods.
`contractLogicError` is web3's `ContractLogicError`; `otherError` stands for
any other exception a ledger call may raise; `operationNotFinished` and
`operationFailed` come from operation polling; `invalidAsset` is
`dkg.exceptions.InvalidAsset` carrying the ledger id and the recomputed
Merkle root; `typeError` and `keyError` model the corresponding Python
runtime errors on `None`/missing-key subscripting. -/
inductive PyErr where
  | contractLogicError (msg : String)
  | otherError (msg : String)
  | operationNotFinished
  | operationFailed (detail : String)
  | invalidAsset (latestAssertionId : String) (merkleRoot : String)
  | typeError (msg : String)
  | keyError (msg : String)
deriving DecidableEq, Repr

/-- Response of `_get_operation_result` (a `NodeResponseDict`).
`dataAssertion` models `response['data']['assertion']` (present on
completed `get` operations); `failureDetail` models the failure detail
reported with a `failed` status. -/
structure NodeResponse where
  status : OperationStatus
  dataAssertion : Option (List String)
  failureDetail : String
deriving DecidableEq, Repr

/-- Entry of the public graph dictionary `public_graph['@graph']` built by
`_process_content`: either the caller's public content, or the single
linking statement mapping the reserved private-assertion predicate to the
private assertion id. -/
inductive GraphEntry where
  | userData (j : JSONLD)
  | privateAssertionLink (predicate : String) (assertionId : String)
deriving DecidableEq, Repr

/-- Argument of `normalize_dataset`: either the assembled public graph or
the raw private content. -/
inductive Dataset where
  | publicGraph (entries : List GraphEntry)
  | rawContent (j : JSONLD)
deriving DecidableEq, Repr

/-- Input content of `create`/`update`/`_process_content`:
`dict[Literal['public', 'private'], JSONLD]`.  `none` models a key that is
absent or whose value is Python-falsy (the source only ever tests the keys
with `content.get(k, None)` truthiness). -/
structure Content where
  pub : Option JSONLD
  priv : Option JSONLD
deriving DecidableEq, Repr

/-- Result of `generate_assertion_metadata` (size, triples_number,
chunks_number of a canonicalized assertion). -/
structure AssertionMetadata where
  size : Nat
  triplesNumber : Nat
  chunksNumber : Nat
deriving DecidableEq, Repr

/-- Modelled from the spec: the external library functions imported by
`src/dkg/assets.py` whose sources are not under `src/`.
`normalizeDataset` is `dkg.utils.rdf.normalize_dataset` (canonicalization
to an ordered statement sequence, total per the external-interface
contract in the spec); `assertionRoot` is the composition
`MerkleTree(hash_assertion_with_indexes(stmts), sort_pairs=True).root`
from `dkg.utils.merkle`; `assertionMetadata` is
`dkg.utils.metadata.generate_assertion_metadata`; `fromRdf` is
`pyld.jsonld.from_rdf`; `generateKeyword` and `generateAgreementId` are
the deterministic derivations of `dkg.utils.metadata`. -/
structure Collab where
  normalizeDataset : Dataset → ContentType → List String
  assertionRoot : List String → String
  assertionMetadata : List String → AssertionMetadata
  fromRdf : List String → List JSONLD
  generateKeyword : String → String → String
  generateAgreementId : String → Nat → String → String

/-- Class constant `ContentAsset.HASH_FUNCTION_ID`. -/
def HASH_FUNCTION_ID : Nat := 1

/-- Class constant `ContentAsset.SCORE_FUNCTION_ID`. -/
def SCORE_FUNCTION_ID : Nat := 1

/-- Class constant `ContentAsset.PRIVATE_ASSERTION_PREDICATE`. -/
def PRIVATE_ASSERTION_PREDICATE : String :=
  "https://ontology.origintrail.io/dkg/1.0#privateAssertionID"

/-- Modelled from the spec: `dkg.utils.node_request.validate_operation_status`
is not under `src/`.  Per the operation-coordinator contract, a `pending`
response raises the retryable not-finished condition, `completed` passes,
and `failed` raises a terminal operation-failed error carrying the reported
detail. -/
def validate_operation_status (operation_result : NodeResponse) : Except PyErr Unit :=
  match operation_result.status with
  | .pending => .error .operationNotFinished
  | .completed => .ok ()
  | .failed => .error (.operationFailed operation_result.failureDetail)

/-- Modelled from the spec: the retry decorator `dkg.utils.decorators.retry`
is not under `src/`.  Per the spec it is a higher-order retry policy: up to
`fuel` attempts; the delay slept before attempt number `n+1` is
`base * backoff ^ n` time units; only the not-finished condition is
retried, every other outcome (success or failure) is returned at once;
exhausting the budget surfaces the not-finished error.  `f n` is the
outcome of attempt number `n+1`; the returned list collects the delay slept
before each attempt actually made, so its length is the number of
attempts. -/
def retryGo (f : Nat → Except PyErr α) (base backoff : Nat) : Nat → Nat → Except PyErr α × List Nat
  | _, 0 => (.error .operationNotFinished, [])
  | n, Nat.succ fuel =>
    let d := base * backoff ^ n
    match f n with
    | .error .operationNotFinished =>
      let rest := retryGo f base backoff (n + 1) fuel
      (rest.1, d :: rest.2)
    | out => (out, [d])

/-- Modelled from the spec: the retry policy applied by the decorator
`@retry(catch=OperationNotFinished, max_retries=5, base_delay=1, backoff=2)`
used on both polling sites of `src/dkg/assets.py`. -/
def retryPolicy (f : Nat → Except PyErr α) : Except PyErr α × List Nat :=
  retryGo f 1 2 0 5

/-- Method `ContentAsset.get_operation_result` (src lines 329-338): polls
`_get_operation_result(operation_id, operation)`, validates the status, and
returns the response, under the retry policy.  `poll id op n` is the node's
response to the `n+1`-th poll of operation `id` named `op`.  Returns the
result together with the list of delays slept (one per attempt). -/
def get_operation_result (poll : String → String → Nat → NodeResponse)
    (operation_id operation : String) : Except PyErr NodeResponse × List Nat :=
  retryPolicy (fun n =>
    let operation_result := poll operation_id operation n
    match validate_operation_status operation_result with
    | .ok _ => .ok operation_result
    | .error e => .error e)

/-- The `public_graph['@graph']` list of `_process_content` before any
private-assertion link is appended: the public content, when truthy. -/
def publicGraphBase (content : Content) : List GraphEntry :=
  match content.pub with
  | some j => [.userData j]
  | none => []

/-- The `"public"` entry of the dictionary returned by `_process_content`. -/
structure PublicAssertionInfo where
  id : String
  content : List String
  size : Nat
  triples_number : Nat
  chunks_number : Nat
deriving DecidableEq, Repr

/-- The `"private"` entry of the dictionary returned by `_process_content`
(when non-empty). -/
structure PrivateAssertionInfo where
  id : String
  content : List String
deriving DecidableEq, Repr

/-- Return value of `_process_content`.  The source returns the literal
`{}` for the `"private"` entry when the input has no private part; that
empty dictionary is modelled as `none`. -/
structure ProcessedContent where
  pub : PublicAssertionInfo
  priv : Option PrivateAssertionInfo
deriving DecidableEq, Repr

/-- Method `ContentAsset._process_content` (src lines 280-318).  Builds the
public graph from the truthy public content; when private content is
present, canonicalizes it, computes its Merkle root, and appends to the
public graph the single statement mapping `PRIVATE_ASSERTION_PREDICATE` to
that root; then canonicalizes the public graph, computes its root and
metadata, and returns both assertions.  The source performs no validation
of the input content and contains no raise statement. -/
def process_content (c : Collab) (content : Content) (ct : ContentType) : ProcessedContent :=
  match content.priv with
  | none =>
    let public_assertion := c.normalizeDataset (.publicGraph (publicGraphBase content)) ct
    let public_assertion_id := c.assertionRoot public_assertion
    let md := c.assertionMetadata public_assertion
    { pub := { id := public_assertion_id, content := public_assertion,
               size := md.size, triples_number := md.triplesNumber,
               chunks_number := md.chunksNumber },
      priv := none }
  | some private_content =>
    let private_assertion := c.normalizeDataset (.rawContent private_content) ct
    let private_assertion_id := c.assertionRoot private_assertion
    let public_graph := publicGraphBase content ++
      [.privateAssertionLink PRIVATE_ASSERTION_PREDICATE private_assertion_id]
    let public_assertion := c.normalizeDataset (.publicGraph public_graph) ct
    let public_assertion_id := c.assertionRoot public_assertion
    let md := c.assertionMetadata public_assertion
    { pub := { id := public_assertion_id, content := public_assertion,
               size := md.size, triples_number := md.triplesNumber,
               chunks_number := md.chunksNumber },
      priv := some { id := private_assertion_id, content := private_assertion } }

/-- Modelled from the spec: the locator codec (`dkg.utils.ual`) is not
under `src/`.  A locator binds a chain name, a storage contract address and
a numeric token id; locators are represented here in parsed form, so
`format_ual` constructs the record and `parse_ual` is the identity. -/
structure UAL where
  chainName : String
  contractAddress : String
  tokenId : Nat
deriving DecidableEq, Repr

/-- Modelled from the spec: `dkg.utils.ual.format_ual`. -/
def format_ual (blockchain : String) (contract_address : String) (token_id : Nat) : UAL :=
  { chainName := blockchain, contractAddress := contract_address, tokenId := token_id }

/-- Modelled from the spec: `dkg.utils.ual.parse_ual` (locators are kept in
parsed form, see `UAL`). -/
def parse_ual (ual : UAL) : UAL := ual

/-- Store type tag of a LocalStore entry (`StoreTypes.TRIPLE` /
`StoreTypes.PENDING` from `dkg.utils.node_request`). -/
inductive StoreType where
  | triple
  | pending
deriving DecidableEq, Repr

/-- One element of the `assertions_list` submitted to `_local_store`. -/
structure StoreEntry where
  blockchain : String
  contract : String
  tokenId : Nat
  assertionId : String
  assertion : List String
  storeType : StoreType
deriving DecidableEq, Repr

/-- Parameter dictionary of the `_create` mint write (src lines 71-80). -/
structure CreateParams where
  assertionId : String
  size : Nat
  triplesNumber : Nat
  chunksNumber : Nat
  tokenAmount : Int
  epochsNumber : Int
  scoreFunctionId : Nat
  immutable : Bool
deriving DecidableEq, Repr

/-- Parameters of the `_update_asset_state` ledger write (src lines 179-186). -/
structure UpdateParams where
  tokenId : Nat
  assertionId : String
  size : Nat
  triplesNumber : Nat
  chunksNumber : Nat
  updateTokenAmount : Int
deriving DecidableEq, Repr

/-- Successful mint: the transaction receipt together with the decoded
`AssetMinted` event, of which the source only reads
`events[0].args['tokenId']`. -/
structure MintReceipt where
  tokenId : Nat
deriving DecidableEq, Repr

/-- Ledger record returned by `_get_service_agreement_data` (namedtuple
`AgreementData`). -/
structure AgreementData where
  startTime : Int
  epochLength : Int
  epochsNumber : Int
  tokensInfo : List Int
deriving DecidableEq, Repr

/-- Observable external calls recorded in the trace of the embedded
methods, in program order.  Pure read-only configuration lookups
(`chain_id`, contract/storage address resolution) and the polling reads are
not recorded; each constructor carries the full argument list the source
passes. -/
inductive Call where
  | getBidSuggestion (chainName : String) (epochsNumber : Int) (size : Nat)
      (contentAssetStorageAddress : String) (assertionId : String) (hashFunctionId : Nat)
  | increaseAllowance (spender : String) (amount : Int)
  | decreaseAllowance (spender : String) (amount : Int)
  | createAsset (params : CreateParams)
  | localStore (assertions : List StoreEntry)
  | publish (assertionId : String) (assertion : List String) (chainName : String)
      (contentAssetStorageAddress : String) (tokenId : Nat) (hashFunctionId : Nat)
  | getAssertionIdByIndex (tokenId : Nat) (index : Nat)
  | getServiceAgreementData (agreementId : String)
  | getBlock (tag : String)
  | updateAssetState (params : UpdateParams)
  | updateOp (assertionId : String) (assertion : List String) (chainName : String)
      (contentAssetStorageAddress : String) (tokenId : Nat) (hashFunctionId : Nat)
deriving DecidableEq, Repr

/-- Responses of the two external collaborators (ledger provider and node
network) as pure functions: the embedded methods are deterministic given an
environment.  `pollResponses id op n` is the response to the `n+1`-th poll
of operation `id` under operation name `op`. -/
structure Env where
  chainName : String
  contentAssetStorageAddress : String
  serviceAgreementV1Address : String
  bidSuggestion : String → Int → Nat → String → String → Nat → Int
  mintResult : CreateParams → Except PyErr MintReceipt
  localStoreOperationId : List StoreEntry → String
  publishOperationId : String → List String → String → String → Nat → Nat → String
  updateOperationId : String → List String → String → String → Nat → Nat → String
  getOperationId : UAL → Nat → String
  pollResponses : String → String → Nat → NodeResponse
  assertionIdByIndex : Nat → Nat → String
  serviceAgreementData : String → AgreementData
  blockTimestamp : Int
  latestAssertionId : Nat → String

/-- Return dictionary of `create` and `update`. -/
structure LifecycleResult where
  ual : UAL
  publicAssertionId : String
  operationId : String
  status : OperationStatus
deriving DecidableEq, Repr

/-- Return dictionary of `get`. -/
structure GetResult where
  assertionId : String
  assertion : List JSONLD
  operationId : String
  status : OperationStatus
deriving DecidableEq, Repr

/-- Token amount used by `create` (src lines 55-65): the caller's amount
when supplied, otherwise the node's bid suggestion for the public
assertion. -/
def createTokenAmount (env : Env) (c : Collab) (content : Content) (epochs_number : Int)
    (token_amount : Option Int) (ct : ContentType) : Int :=
  match token_amount with
  | some t => t
  | none =>
    let assertions := process_content c content ct
    env.bidSuggestion env.chainName epochs_number assertions.pub.size
      env.contentAssetStorageAddress assertions.pub.id HASH_FUNCTION_ID

/-- Trace of the bid-suggestion query issued by `create`: empty when the
caller supplied a token amount. -/
def createBidCalls (env : Env) (c : Collab) (content : Content) (epochs_number : Int)
    (token_amount : Option Int) (ct : ContentType) : List Call :=
  match token_amount with
  | some _ => []
  | none =>
    let assertions := process_content c content ct
    [.getBidSuggestion env.chainName epochs_number assertions.pub.size
      env.contentAssetStorageAddress assertions.pub.id HASH_FUNCTION_ID]

/-- Parameter dictionary `create` passes to the `_create` mint write. -/
def createMintParams (env : Env) (c : Collab) (content : Content) (epochs_number : Int)
    (token_amount : Option Int) (immutable : Bool) (ct : ContentType) : CreateParams :=
  let assertions := process_content c content ct
  { assertionId := assertions.pub.id,
    size := assertions.pub.size,
    triplesNumber := assertions.pub.triples_number,
    chunksNumber := assertions.pub.chunks_number,
    tokenAmount := createTokenAmount env c content epochs_number token_amount ct,
    epochsNumber := epochs_number,
    scoreFunctionId := SCORE_FUNCTION_ID,
    immutable := immutable }

/-- The `assertions_list` built identically by `create` (src lines 92-109,
with store type `TRIPLE`) and `update` (src lines 188-205, with store type
`PENDING`): the public assertion, followed by the private assertion exactly
when the input content has a truthy private part. -/
def assertions_list (chainName contractAddr : String) (token_id : Nat)
    (assertions : ProcessedContent) (content : Content) (st : StoreType) : List StoreEntry :=
  let base : StoreEntry :=
    { blockchain := chainName, contract := contractAddr, tokenId := token_id,
      assertionId := assertions.pub.id, assertion := assertions.pub.content, storeType := st }
  match content.priv with
  | none => [base]
  | some _ =>
    match assertions.priv with
    | some p =>
      [base,
       { blockchain := chainName, contract := contractAddr, tokenId := token_id,
         assertionId := p.id, assertion := p.content, storeType := st }]
    | none => [base]

/-- Method `ContentAsset.create` (src lines 42-131).  Processes the
content, resolves the token amount (bid suggestion when omitted), increases
the allowance for the ServiceAgreementV1 contract, attempts the mint —
compensating with a decrease of the same amount and re-raising when (and
only when) the mint raises `ContractLogicError` — then decodes the minted
token id, submits the LocalStore operation (store type `TRIPLE`) and the
Publish operation, polling each, and returns the locator, public assertion
id and final operation status.  The second component is the trace of
recorded external calls. -/
def create (env : Env) (c : Collab) (content : Content) (epochs_number : Int)
    (token_amount : Option Int) (immutable : Bool) (ct : ContentType) :
    Except PyErr LifecycleResult × List Call :=
  let assertions := process_content c content ct
  let preCalls := createBidCalls env c content epochs_number token_amount ct ++
    [.increaseAllowance env.serviceAgreementV1Address
       (createTokenAmount env c content epochs_number token_amount ct),
     .createAsset (createMintParams env c content epochs_number token_amount immutable ct)]
  match env.mintResult (createMintParams env c content epochs_number token_amount immutable ct) with
  | .error (.contractLogicError m) =>
    (.error (.contractLogicError m),
     preCalls ++ [.decreaseAllowance env.serviceAgreementV1Address
       (createTokenAmount env c content epochs_number token_amount ct)])
  | .error e => (.error e, preCalls)
  | .ok receipt =>
    let token_id := receipt.tokenId
    let assertionsList :=
      assertions_list env.chainName env.contentAssetStorageAddress token_id assertions content .triple
    let callsStore := preCalls ++ [.localStore assertionsList]
    match (get_operation_result env.pollResponses (env.localStoreOperationId assertionsList)
        "local-store").1 with
    | .error e => (.error e, callsStore)
    | .ok _ =>
      let publish_operation_id := env.publishOperationId assertions.pub.id assertions.pub.content
        env.chainName env.contentAssetStorageAddress token_id HASH_FUNCTION_ID
      let callsPublish := callsStore ++ [.publish assertions.pub.id assertions.pub.content
        env.chainName env.contentAssetStorageAddress token_id HASH_FUNCTION_ID]
      match (get_operation_result env.pollResponses publish_operation_id "publish").1 with
      | .error e => (.error e, callsPublish)
      | .ok operation_result =>
        (.ok { ual := format_ual env.chainName env.contentAssetStorageAddress token_id,
               publicAssertionId := assertions.pub.id,
               operationId := publish_operation_id,
               status := operation_result.status }, callsPublish)

/-- Method `ContentAsset.get_agreement_id` (src lines 322-325): fetch the
first historical assertion id, derive the keyword, derive the agreement
id. -/
def get_agreement_id (env : Env) (c : Collab) (contract_address : String) (token_id : Nat) :
    String :=
  let first_assertion_id := env.assertionIdByIndex token_id 0
  let keyword := c.generateKeyword contract_address first_assertion_id
  c.generateAgreementId contract_address token_id keyword

/-- Additional token amount used by `update` (src lines 154-177): the
caller's amount when supplied; otherwise the bid suggestion for the epochs
left on the agreement minus the already-escrowed `tokensInfo[0]`, floored
at zero.  `Int.fdiv` models `math.floor((timestamp_now - startTime) /
epochLength)` as the floor of the exact quotient (Python divides as floats;
a zero `epochLength` would raise `ZeroDivisionError` there and is outside
the modelled domain).  `tokensInfo[0]` is modelled as `headD 0`; an empty
`tokensInfo` would raise `IndexError` in Python and is likewise outside the
modelled domain. -/
def updateTokenAmount (env : Env) (c : Collab) (ual : UAL) (content : Content)
    (token_amount : Option Int) (ct : ContentType) : Int :=
  match token_amount with
  | some t => t
  | none =>
    let assertions := process_content c content ct
    let agreement_id := get_agreement_id env c ual.contractAddress ual.tokenId
    let agreement_data := env.serviceAgreementData agreement_id
    let timestamp_now := env.blockTimestamp
    let current_epoch := Int.fdiv (timestamp_now - agreement_data.startTime) agreement_data.epochLength
    let epochs_left := agreement_data.epochsNumber - current_epoch
    let bid := env.bidSuggestion env.chainName epochs_left assertions.pub.size
      ual.contractAddress assertions.pub.id HASH_FUNCTION_ID
    let amount := bid - agreement_data.tokensInfo.headD 0
    if amount > 0 then amount else 0

/-- Trace of the pricing lookups issued by `update` when the token amount
is omitted (first assertion id, agreement data, latest block, bid
suggestion), in program order; empty when the caller supplied an amount. -/
def updatePricingCalls (env : Env) (c : Collab) (ual : UAL) (content : Content)
    (token_amount : Option Int) (ct : ContentType) : List Call :=
  match token_amount with
  | some _ => []
  | none =>
    let assertions := process_content c content ct
    let agreement_id := get_agreement_id env c ual.contractAddress ual.tokenId
    let agreement_data := env.serviceAgreementData agreement_id
    let timestamp_now := env.blockTimestamp
    let current_epoch := Int.fdiv (timestamp_now - agreement_data.startTime) agreement_data.epochLength
    let epochs_left := agreement_data.epochsNumber - current_epoch
    [.getAssertionIdByIndex ual.tokenId 0,
     .getServiceAgreementData agreement_id,
     .getBlock "latest",
     .getBidSuggestion env.chainName epochs_left assertions.pub.size
       ual.contractAddress assertions.pub.id HASH_FUNCTION_ID]

/-- Parameters `update` passes to the `_update_asset_state` ledger write. -/
def updateAssetStateParams (env : Env) (c : Collab) (ual : UAL) (content : Content)
    (token_amount : Option Int) (ct : ContentType) : UpdateParams :=
  let assertions := process_content c content ct
  { tokenId := ual.tokenId,
    assertionId := assertions.pub.id,
    size := assertions.pub.size,
    triplesNumber := assertions.pub.triples_number,
    chunksNumber := assertions.pub.chunks_number,
    updateTokenAmount := updateTokenAmount env c ual content token_amount ct }

/-- Method `ContentAsset.update` (src lines 140-227).  Parses the locator,
processes the content, resolves the additional token amount (pricing
lookups when omitted), writes the new asset state to the ledger, submits
the LocalStore operation (store type `PENDING`) and the Update operation,
polling each, and returns the locator, public assertion id and final
operation status, together with the trace of recorded external calls. -/
def update (env : Env) (c : Collab) (ual : UAL) (content : Content)
    (token_amount : Option Int) (ct : ContentType) :
    Except PyErr LifecycleResult × List Call :=
  let parsed := parse_ual ual
  let assertions := process_content c content ct
  let preCalls := updatePricingCalls env c ual content token_amount ct ++
    [.updateAssetState (updateAssetStateParams env c ual content token_amount ct)]
  let assertionsList :=
    assertions_list env.chainName parsed.contractAddress parsed.tokenId assertions content .pending
  let callsStore := preCalls ++ [.localStore assertionsList]
  match (get_operation_result env.pollResponses (env.localStoreOperationId assertionsList)
      "local-store").1 with
  | .error e => (.error e, callsStore)
  | .ok _ =>
    let update_operation_id := env.updateOperationId assertions.pub.id assertions.pub.content
      env.chainName parsed.contractAddress parsed.tokenId HASH_FUNCTION_ID
    let callsUpdate := callsStore ++ [.updateOp assertions.pub.id assertions.pub.content
      env.chainName parsed.contractAddress parsed.tokenId HASH_FUNCTION_ID]
    match (get_operation_result env.pollResponses update_operation_id "update").1 with
    | .error e => (.error e, callsUpdate)
    | .ok operation_result =>
      (.ok { ual := format_ual env.chainName parsed.contractAddress parsed.tokenId,
             publicAssertionId := assertions.pub.id,
             operationId := update_operation_id,
             status := operation_result.status }, callsUpdate)

/-- Lines 248-273 of `get` as they would execute on an actual polling
result value: extract `operation_result['data']['assertion']`, read the
ledger's latest assertion id, on `validate` recompute the Merkle root and
raise `InvalidAsset` carrying both values when it differs, convert the
statements back to JSON-LD and return.  In the source this continuation is
reachable only if the inline polling closure returned its result; see
`get`. -/
def getAfterPoll (env : Env) (c : Collab) (ual : UAL) (validate : Bool)
    (operation_id : String) (operation_result : NodeResponse) : Except PyErr GetResult :=
  match operation_result.dataAssertion with
  | none => .error (.keyError "data assertion")
  | some assertion =>
    let token_id := (parse_ual ual).tokenId
    let latest_assertion_id := env.latestAssertionId token_id
    if validate then
      let root := c.assertionRoot assertion
      if root ≠ latest_assertion_id then
        .error (.invalidAsset latest_assertion_id root)
      else
        .ok { assertionId := latest_assertion_id, assertion := c.fromRdf assertion,
              operationId := operation_id, status := operation_result.status }
    else
      .ok { assertionId := latest_assertion_id, assertion := c.fromRdf assertion,
            operationId := operation_id, status := operation_result.status }

/-- Method `ContentAsset.get` (src lines 233-273).  Submits the Get
operation, then polls it with the inline retry-decorated closure of src
lines 238-245: that closure fetches the operation result and validates its
status but ends without a return statement, so its Python value is `None`
(modelled as `Option.none`; compare the method `get_operation_result`, src
lines 329-338, which does return the result).  Line 248 then subscripts
that `None` with `['data']`, raising `TypeError`, so the continuation
`getAfterPoll` is dead code. -/
def get (env : Env) (c : Collab) (ual : UAL) (validate : Bool) : Except PyErr GetResult :=
  let operation_id := env.getOperationId ual 1
  let closure : Nat → Except PyErr (Option NodeResponse) := fun n =>
    let operation_result := env.pollResponses operation_id "get" n
    match validate_operation_status operation_result with
    | .ok _ => .ok none
    | .error e => .error e
  match (retryPolicy closure).1 with
  | .error e => .error e
  | .ok none => .error (.typeError "NoneType object is not subscriptable")
  | .ok (some operation_result) => getAfterPoll env c ual validate operation_id operation_result

/-- Method `ContentAsset.owner` (src lines 277-278): passthrough `ownerOf`
ledger query (the owner lookup is read directly from the environment). -/
def owner (ownerOf : Nat → String) (token_id : Nat) : String :=
  ownerOf token_id

/-- Projection selecting LocalStore submissions from a trace. -/
def Call.localStorePayload : Call → Option (List StoreEntry)
  | .localStore l => some l
  | _ => none

/-- Projection selecting allowance increases (spender, amount) from a trace. -/
def Call.increasePayload : Call → Option (String × Int)
  | .increaseAllowance s a => some (s, a)
  | _ => none

/-- Projection selecting allowance decreases (spender, amount) from a trace. -/
def Call.decreasePayload : Call → Option (String × Int)
  | .decreaseAllowance s a => some (s, a)
  | _ => none

/-- Projection selecting mint writes from a trace. -/
def Call.createPayload : Call → Option CreateParams
  | .createAsset p => some p
  | _ => none

/-- Projection selecting asset-state update writes from a trace. -/
def Call.updateStatePayload : Call → Option UpdateParams
  | .updateAssetState p => some p
  | _ => none

/-- Calls that only serve to price an asset when the token amount is
omitted: the bid-suggestion query and, for `update`, the
agreement-derivation and block-timestamp lookups. -/
def Call.isPricingLookup : Call → Bool
  | .getBidSuggestion _ _ _ _ _ _ => true
  | .getServiceAgreementData _ => true
  | .getBlock _ => true
  | .getAssertionIdByIndex _ _ => true
  | _ => false

/-! Concrete instances used by witnesses and counterexamples. -/

/-- Rendering of a public-graph entry used by the sample canonicalizer. -/
def entryText : GraphEntry → String
  | .userData j => "user:" ++ j
  | .privateAssertionLink p i => p ++ "=" ++ i

/-- Sample instantiation of the external library collaborators. -/
def collab0 : Collab :=
  { normalizeDataset := fun d _ =>
      match d with
      | .rawContent j => ["raw:" ++ j]
      | .publicGraph es => es.map entryText,
    assertionRoot := fun xs => "root-" ++ String.intercalate "+" xs,
    assertionMetadata := fun xs => { size := xs.length * 10, triplesNumber := xs.length, chunksNumber := xs.length },
    fromRdf := fun xs => xs,
    generateKeyword := fun a b => a ++ "-" ++ b,
    generateAgreementId := fun a t k => a ++ "-" ++ toString t ++ "-" ++ k }

/-- Sample environment: every external call succeeds on the first attempt. -/
def env0 : Env :=
  { chainName := "otp",
    contentAssetStorageAddress := "0xStorage",
    serviceAgreementV1Address := "0xServiceAgreement",
    bidSuggestion := fun _ _ _ _ _ _ => 100,
    mintResult := fun _ => .ok { tokenId := 7 },
    localStoreOperationId := fun _ => "op-local-store",
    publishOperationId := fun _ _ _ _ _ _ => "op-publish",
    updateOperationId := fun _ _ _ _ _ _ => "op-update",
    getOperationId := fun _ _ => "op-get",
    pollResponses := fun _ _ _ => { status := .completed, dataAssertion := some ["quad1"], failureDetail := "" },
    assertionIdByIndex := fun _ _ => "0xfirst",
    serviceAgreementData := fun _ => { startTime := 0, epochLength := 2, epochsNumber := 5, tokensInfo := [40] },
    blockTimestamp := 4,
    latestAssertionId := fun _ => "0xlatest" }

/-- Sample content with both a public and a private part. -/
def content1 : Content := { pub := some "pubdata", priv := some "privdata" }

/-- Sample content with only a public part. -/
def contentPubOnly : Content := { pub := some "pubdata", priv := none }

/-- Sample locator. -/
def ual0 : UAL := { chainName := "otp", contractAddress := "0xStorage", tokenId := 7 }

/-- Sample environment whose mint call reverts with `ContractLogicError`. -/
def envRevert : Env :=
  { env0 with mintResult := fun _ => .error (.contractLogicError "revert") }

/-- Sample environment whose mint call raises a non-`ContractLogicError`
exception. -/
def envOtherError : Env :=
  { env0 with mintResult := fun _ => .error (.otherError "connection reset") }

/-- Node response that is forever pending. -/
def pendingResponse : NodeResponse :=
  { status := .pending, dataAssertion := none, failureDetail := "" }

/-- Node response reporting terminal failure. -/
def failedResponse : NodeResponse :=
  { status := .failed, dataAssertion := none, failureDetail := "boom" }

/-- Node response reporting completion with a one-statement payload. -/
def completedResponse : NodeResponse :=
  { status := .completed, dataAssertion := some ["quad1"], failureDetail := "" }

/-! Claim theorems. -/

/-- C1: in `create`, when the mint call is rejected with
`ContractLogicError` after the allowance increase, the allowance for the
service-agreement contract is decreased by exactly the token amount just
increased, and the original mint failure is re-raised: the result is the
original error and the trace is the increase, the mint attempt, then a
decrease of the same amount for the same spender. -/
theorem create_compensates_allowance_on_contract_logic_error
    (env : Env) (c : Collab) (content : Content) (en : Int) (tok : Option Int)
    (imm : Bool) (ct : ContentType) (m : String)
    (hm : env.mintResult (createMintParams env c content en tok imm ct) =
      .error (.contractLogicError m)) :
    create env c content en tok imm ct =
      (.error (.contractLogicError m),
       createBidCalls env c content en tok ct ++
         [.increaseAllowance env.serviceAgreementV1Address
            (createTokenAmount env c content en tok ct),
          .createAsset (createMintParams env c content en tok imm ct),
          .decreaseAllowance env.serviceAgreementV1Address
            (createTokenAmount env c content en tok ct)]) := by
  simp [create, hm]

/-- C1 witness: concrete rollback run with a supplied token amount 100. -/
theorem create_compensates_allowance_on_contract_logic_error_witness :
    create envRevert collab0 content1 2 (some 100) false .jsonld =
      (.error (.contractLogicError "revert"),
       createBidCalls envRevert collab0 content1 2 (some 100) .jsonld ++
         [.increaseAllowance envRevert.serviceAgreementV1Address
            (createTokenAmount envRevert collab0 content1 2 (some 100) .jsonld),
          .createAsset (createMintParams envRevert collab0 content1 2 (some 100) false .jsonld),
          .decreaseAllowance envRevert.serviceAgreementV1Address
            (createTokenAmount envRevert collab0 content1 2 (some 100) .jsonld)]) :=
  create_compensates_allowance_on_contract_logic_error
    envRevert collab0 content1 2 (some 100) false .jsonld "revert" rfl

/-- C9: the compensating allowance decrease happens only for
`ContractLogicError`; any other exception from the mint call propagates
unchanged and the trace ends at the mint attempt, with the increased
allowance left in place (no decrease call). -/
theorem create_no_rollback_on_other_error
    (env : Env) (c : Collab) (content : Content) (en : Int) (tok : Option Int)
    (imm : Bool) (ct : ContentType) (e : PyErr)
    (hm : env.mintResult (createMintParams env c content en tok imm ct) = .error e)
    (hne : ∀ m, e ≠ .contractLogicError m) :
    create env c content en tok imm ct =
      (.error e,
       createBidCalls env c content en tok ct ++
         [.increaseAllowance env.serviceAgreementV1Address
            (createTokenAmount env c content en tok ct),
          .createAsset (createMintParams env c content en tok imm ct)]) := by
  cases e with
  | contractLogicError m => exact absurd rfl (hne m)
  | _ => simp [create, hm]

/-- C9 witness: a non-`ContractLogicError` mint failure propagates with no
decrease in the trace. -/
theorem create_no_rollback_on_other_error_witness :
    create envOtherError collab0 content1 2 (some 100) false .jsonld =
      (.error (.otherError "connection reset"),
       createBidCalls envOtherError collab0 content1 2 (some 100) .jsonld ++
         [.increaseAllowance envOtherError.serviceAgreementV1Address
            (createTokenAmount envOtherError collab0 content1 2 (some 100) .jsonld),
          .createAsset (createMintParams envOtherError collab0 content1 2 (some 100) false .jsonld)]) :=
  create_no_rollback_on_other_error envOtherError collab0 content1 2 (some 100) false .jsonld
    (.otherError "connection reset") rfl (fun _ h => by cases h)

/-- C2: operation polling attempts exactly 5 times with delays 1, 2, 4, 8,
16 when the response stays pending and then raises the not-finished error
(the returned delay list has one entry per attempt made); a first completed
response is returned after a single attempt; a first failed response raises
the operation-failed error after a single attempt, with no retries. -/
theorem operation_polling_retry_bounds :
    (∀ (poll : String → String → Nat → NodeResponse) (opId op : String),
      (∀ n, (poll opId op n).status = .pending) →
      get_operation_result poll opId op = (.error .operationNotFinished, [1, 2, 4, 8, 16])) ∧
    (∀ (poll : String → String → Nat → NodeResponse) (opId op : String),
      (poll opId op 0).status = .completed →
      get_operation_result poll opId op = (.ok (poll opId op 0), [1])) ∧
    (∀ (poll : String → String → Nat → NodeResponse) (opId op : String),
      (poll opId op 0).status = .failed →
      get_operation_result poll opId op =
        (.error (.operationFailed (poll opId op 0).failureDetail), [1])) := by
  refine ⟨?_, ?_, ?_⟩
  · intro poll opId op h
    simp [get_operation_result, retryPolicy, retryGo, validate_operation_status, h]
  · intro poll opId op h
    simp [get_operation_result, retryPolicy, retryGo, validate_operation_status, h]
  · intro poll opId op h
    simp [get_operation_result, retryPolicy, retryGo, validate_operation_status, h]

/-- C2 witness: the three retry behaviors at concrete polling sequences. -/
theorem operation_polling_retry_bounds_witness :
    get_operation_result (fun _ _ _ => pendingResponse) "op" "publish" =
      (.error .operationNotFinished, [1, 2, 4, 8, 16]) ∧
    get_operation_result (fun _ _ _ => completedResponse) "op" "publish" =
      (.ok completedResponse, [1]) ∧
    get_operation_result (fun _ _ _ => failedResponse) "op" "publish" =
      (.error (.operationFailed "boom"), [1]) :=
  ⟨operation_polling_retry_bounds.1 (fun _ _ _ => pendingResponse) "op" "publish" (fun _ => rfl),
   operation_polling_retry_bounds.2.1 (fun _ _ _ => completedResponse) "op" "publish" rfl,
   operation_polling_retry_bounds.2.2 (fun _ _ _ => failedResponse) "op" "publish" rfl⟩

/-- Helper: the source's floor-at-zero idiom equals `max 0`. -/
theorem if_pos_eq_max (x : Int) : (if x > 0 then x else 0) = max 0 x := by
  rcases le_or_lt x 0 with h | h
  · rw [if_neg (not_lt.2 h), max_eq_left h]
  · rw [if_pos h, max_eq_right h.le]

/-- C3: in `update` with the token amount omitted, the additional amount is
the bid suggestion queried at `epochsLeft = epochsNumber - floor((now -
startTime) / epochLength)` minus the already-escrowed `tokensInfo[0]`,
floored at zero; it is never negative; and it is exactly the amount written
by the single `_update_asset_state` ledger call.  The hypotheses restrict
to agreements on which the Python code does not crash (non-zero epoch
length, non-empty `tokensInfo`). -/
theorem update_omitted_token_amount_floor
    (env : Env) (c : Collab) (ual : UAL) (content : Content) (ct : ContentType)
    (agr : AgreementData) (t0 : Int) (rest : List Int)
    (hagr : env.serviceAgreementData (get_agreement_id env c ual.contractAddress ual.tokenId) = agr)
    (htok : agr.tokensInfo = t0 :: rest)
    (_hlen : agr.epochLength ≠ 0) :
    updateTokenAmount env c ual content none ct =
      max 0 (env.bidSuggestion env.chainName
          (agr.epochsNumber - Int.fdiv (env.blockTimestamp - agr.startTime) agr.epochLength)
          (process_content c content ct).pub.size ual.contractAddress
          (process_content c content ct).pub.id HASH_FUNCTION_ID - t0) ∧
    0 ≤ updateTokenAmount env c ual content none ct ∧
    (update env c ual content none ct).2.filterMap Call.updateStatePayload =
      [updateAssetStateParams env c ual content none ct] ∧
    (updateAssetStateParams env c ual content none ct).updateTokenAmount =
      updateTokenAmount env c ual content none ct := by
  refine ⟨?_, ?_, ?_, rfl⟩
  · simp only [updateTokenAmount, hagr, htok, List.headD_cons]
    exact if_pos_eq_max _
  · simp only [updateTokenAmount]
    split <;> omega
  · simp only [update]
    rcases h1 : (get_operation_result env.pollResponses
        (env.localStoreOperationId (assertions_list env.chainName (parse_ual ual).contractAddress
          (parse_ual ual).tokenId (process_content c content ct) content .pending))
        "local-store").1 with e | r
    · simp [h1, updatePricingCalls, Call.updateStatePayload]
    · rcases h2 : (get_operation_result env.pollResponses
          (env.updateOperationId (process_content c content ct).pub.id
            (process_content c content ct).pub.content env.chainName
            (parse_ual ual).contractAddress (parse_ual ual).tokenId HASH_FUNCTION_ID)
          "update").1 with e | r2
      · simp [h1, h2, updatePricingCalls, Call.updateStatePayload]
      · simp [h1, h2, updatePricingCalls, Call.updateStatePayload]

/-- C3 witness: on the sample agreement (start 0, epoch length 2, 5 epochs,
40 escrowed) at timestamp 4 with bid 100 the computed amount is
100 - 40 = 60 and is nonnegative. -/
theorem update_omitted_token_amount_floor_witness :
    updateTokenAmount env0 collab0 ual0 content1 none .jsonld = 60 ∧
    0 ≤ updateTokenAmount env0 collab0 ual0 content1 none .jsonld := by
  have h := update_omitted_token_amount_floor env0 collab0 ual0 content1 .jsonld
    { startTime := 0, epochLength := 2, epochsNumber := 5, tokensInfo := [40] } 40 []
    rfl rfl (by decide)
  exact ⟨by rw [h.1]; rfl, h.2.1⟩

/-- C6 counterexample: processing content with both parts absent/empty does
not fail at all (in particular not with a ContentError, which the module
does not even define a path for): it returns the assertion bundle built
from the empty public graph. -/
theorem process_content_empty_input_no_content_error :
    process_content collab0 { pub := none, priv := none } .jsonld =
      { pub := { id := "root-", content := [], size := 0, triples_number := 0,
                 chunks_number := 0 },
        priv := none } := rfl

/-- C6 amended: `_process_content` performs no emptiness validation; for
every input whose public and private parts are both empty or absent it
canonicalizes the empty public graph and returns the resulting assertion
bundle (with an empty private entry) instead of raising a ContentError. -/
theorem process_content_empty_input_returns_bundle (c : Collab) (ct : ContentType) :
    process_content c { pub := none, priv := none } ct =
      { pub := { id := c.assertionRoot (c.normalizeDataset (.publicGraph []) ct),
                 content := c.normalizeDataset (.publicGraph []) ct,
                 size := (c.assertionMetadata (c.normalizeDataset (.publicGraph []) ct)).size,
                 triples_number :=
                   (c.assertionMetadata (c.normalizeDataset (.publicGraph []) ct)).triplesNumber,
                 chunks_number :=
                   (c.assertionMetadata (c.normalizeDataset (.publicGraph []) ct)).chunksNumber },
        priv := none } := rfl

/-- C7: when the input has a private part, `_process_content` first
computes the private assertion id (the Merkle root of the canonicalized
private content), then builds the public graph as the public content
followed by exactly one additional statement mapping the reserved
private-assertion predicate to that id; the public assertion id is the root
of the canonicalization of that combined graph, hence a function of both
the public content and the private content. -/
theorem process_content_private_embedding
    (c : Collab) (content : Content) (ct : ContentType) (pj : JSONLD)
    (h : content.priv = some pj) :
    process_content c content ct =
      { pub := { id := c.assertionRoot (c.normalizeDataset (.publicGraph (publicGraphBase content ++
                   [.privateAssertionLink PRIVATE_ASSERTION_PREDICATE
                      (c.assertionRoot (c.normalizeDataset (.rawContent pj) ct))])) ct),
                 content := c.normalizeDataset (.publicGraph (publicGraphBase content ++
                   [.privateAssertionLink PRIVATE_ASSERTION_PREDICATE
                      (c.assertionRoot (c.normalizeDataset (.rawContent pj) ct))])) ct,
                 size := (c.assertionMetadata (c.normalizeDataset (.publicGraph (publicGraphBase content ++
                   [.privateAssertionLink PRIVATE_ASSERTION_PREDICATE
                      (c.assertionRoot (c.normalizeDataset (.rawContent pj) ct))])) ct)).size,
                 triples_number := (c.assertionMetadata (c.normalizeDataset (.publicGraph (publicGraphBase content ++
                   [.privateAssertionLink PRIVATE_ASSERTION_PREDICATE
                      (c.assertionRoot (c.normalizeDataset (.rawContent pj) ct))])) ct)).triplesNumber,
                 chunks_number := (c.assertionMetadata (c.normalizeDataset (.publicGraph (publicGraphBase content ++
                   [.privateAssertionLink PRIVATE_ASSERTION_PREDICATE
                      (c.assertionRoot (c.normalizeDataset (.rawContent pj) ct))])) ct)).chunksNumber },
        priv := some { id := c.assertionRoot (c.normalizeDataset (.rawContent pj) ct),
                       content := c.normalizeDataset (.rawContent pj) ct } } := by
  simp [process_content, h]

/-- C7 witness: concrete processing of content with both parts, showing the
private id embedded in the public assertion under the reserved predicate. -/
theorem process_content_private_embedding_witness :
    process_content collab0 content1 .jsonld =
      { pub := { id := "root-user:pubdata+" ++ PRIVATE_ASSERTION_PREDICATE ++ "=root-raw:privdata",
                 content := ["user:pubdata", PRIVATE_ASSERTION_PREDICATE ++ "=root-raw:privdata"],
                 size := 20, triples_number := 2, chunks_number := 2 },
        priv := some { id := "root-raw:privdata", content := ["raw:privdata"] } } :=
  (process_content_private_embedding collab0 content1 .jsonld "privdata" rfl).trans rfl

/-- Helper: the bid-suggestion trace of `create` contains no LocalStore
submission. -/
theorem createBidCalls_no_localStore (env : Env) (c : Collab) (content : Content)
    (en : Int) (tok : Option Int) (ct : ContentType) :
    (createBidCalls env c content en tok ct).filterMap Call.localStorePayload = [] := by
  cases tok <;> simp [createBidCalls, Call.localStorePayload]

/-- Helper: the pricing-lookup trace of `update` contains no LocalStore
submission. -/
theorem updatePricingCalls_no_localStore (env : Env) (c : Collab) (ual : UAL)
    (content : Content) (tok : Option Int) (ct : ContentType) :
    (updatePricingCalls env c ual content tok ct).filterMap Call.localStorePayload = [] := by
  cases tok <;> simp [updatePricingCalls, Call.localStorePayload]

/-- C8: the assertions list submitted to LocalStore tags every entry with
the caller's store type — `TRIPLE` throughout `create`, `PENDING`
throughout `update` — and consists of the public assertion followed by the
private assertion exactly when the input content has a private part;
`create` (once the mint succeeded) and `update` each submit exactly one
LocalStore operation carrying exactly that list. -/
theorem local_store_tags_and_membership :
    (∀ (c : Collab) (content : Content) (ct : ContentType) (chainName contractAddr : String)
        (token_id : Nat) (st : StoreType),
      ((assertions_list chainName contractAddr token_id (process_content c content ct) content st).map
          StoreEntry.storeType =
        match content.priv with
        | none => [st]
        | some _ => [st, st]) ∧
      ((assertions_list chainName contractAddr token_id (process_content c content ct) content st).map
          StoreEntry.assertionId =
        match content.priv with
        | none => [(process_content c content ct).pub.id]
        | some pj => [(process_content c content ct).pub.id,
            c.assertionRoot (c.normalizeDataset (.rawContent pj) ct)])) ∧
    (∀ (env : Env) (c : Collab) (content : Content) (en : Int) (tok : Option Int) (imm : Bool)
        (ct : ContentType) (r : MintReceipt),
      env.mintResult (createMintParams env c content en tok imm ct) = .ok r →
      (create env c content en tok imm ct).2.filterMap Call.localStorePayload =
        [assertions_list env.chainName env.contentAssetStorageAddress r.tokenId
           (process_content c content ct) content .triple]) ∧
    (∀ (env : Env) (c : Collab) (ual : UAL) (content : Content) (tok : Option Int)
        (ct : ContentType),
      (update env c ual content tok ct).2.filterMap Call.localStorePayload =
        [assertions_list env.chainName ual.contractAddress ual.tokenId
           (process_content c content ct) content .pending]) := by
  refine ⟨?_, ?_, ?_⟩
  · intro c content ct chainName contractAddr token_id st
    rcases hp : content.priv with _ | pj
    · simp [assertions_list, hp]
    · simp [assertions_list, hp, process_content]
  · intro env c content en tok imm ct r hm
    simp only [create, hm]
    split
    · simp [List.filterMap_append, createBidCalls_no_localStore, Call.localStorePayload]
    · split <;>
        simp [List.filterMap_append, createBidCalls_no_localStore, Call.localStorePayload]
  · intro env c ual content tok ct
    simp only [update]
    split
    · simp [List.filterMap_append, updatePricingCalls_no_localStore, Call.localStorePayload,
        parse_ual]
    · split <;>
        simp [List.filterMap_append, updatePricingCalls_no_localStore, Call.localStorePayload,
          parse_ual]

/-- C8 witness: the concrete `create` run submits exactly one LocalStore
operation with the two `TRIPLE`-tagged assertions. -/
theorem local_store_tags_and_membership_witness :
    (create env0 collab0 content1 2 (some 100) false .jsonld).2.filterMap
        Call.localStorePayload =
      [assertions_list env0.chainName env0.contentAssetStorageAddress 7
         (process_content collab0 content1 .jsonld) content1 .triple] :=
  local_store_tags_and_membership.2.1 env0 collab0 content1 2 (some 100) false .jsonld
    { tokenId := 7 } rfl

/-- C10: when the caller supplies a token amount, neither `create` nor
`update` issues any pricing lookup (bid suggestion; and for `update` no
agreement-derivation, agreement-data or block-timestamp lookup), and the
supplied amount is used unchanged for the allowance increase and for the
ledger write (`_create` mint respectively `_update_asset_state`). -/
theorem supplied_token_amount_used_unchanged :
    (∀ (env : Env) (c : Collab) (content : Content) (en : Int) (t : Int) (imm : Bool)
        (ct : ContentType),
      ((create env c content en (some t) imm ct).2.filter Call.isPricingLookup = []) ∧
      ((create env c content en (some t) imm ct).2.filterMap Call.increasePayload =
        [(env.serviceAgreementV1Address, t)]) ∧
      ((create env c content en (some t) imm ct).2.filterMap Call.createPayload =
        [createMintParams env c content en (some t) imm ct]) ∧
      (createMintParams env c content en (some t) imm ct).tokenAmount = t) ∧
    (∀ (env : Env) (c : Collab) (ual : UAL) (content : Content) (t : Int) (ct : ContentType),
      ((update env c ual content (some t) ct).2.filter Call.isPricingLookup = []) ∧
      ((update env c ual content (some t) ct).2.filterMap Call.updateStatePayload =
        [updateAssetStateParams env c ual content (some t) ct]) ∧
      (updateAssetStateParams env c ual content (some t) ct).updateTokenAmount = t) := by
  constructor
  · intro env c content en t imm ct
    refine ⟨?_, ?_, ?_, rfl⟩ <;>
      · simp only [create]
        split
        · simp [createBidCalls, createTokenAmount, Call.isPricingLookup, Call.increasePayload,
            Call.createPayload]
        · simp [createBidCalls, createTokenAmount, Call.isPricingLookup, Call.increasePayload,
            Call.createPayload]
        · split
          · simp [createBidCalls, createTokenAmount, Call.isPricingLookup, Call.increasePayload,
              Call.createPayload]
          · split <;>
              simp [createBidCalls, createTokenAmount, Call.isPricingLookup, Call.increasePayload,
                Call.createPayload]
  · intro env c ual content t ct
    refine ⟨?_, ?_, rfl⟩ <;>
      · simp only [update]
        split
        · simp [updatePricingCalls, Call.isPricingLookup, Call.updateStatePayload]
        · split <;> simp [updatePricingCalls, Call.isPricingLookup, Call.updateStatePayload]

/-- Sample environment in which the ledger-recorded latest assertion id
equals the Merkle root the sample collaborators recompute from the served
statement `quad1`. -/
def envMatch : Env := { env0 with latestAssertionId := fun _ => "root-quad1" }

/-- C5: for a Get operation the node reports Completed with a result
payload on the first poll, `get` does not return the statements and status:
the inline polling closure has no return statement (unlike the method
`get_operation_result`), so the awaited value is None and the extraction on
src line 248 raises `TypeError`.  The second conjunct shows the
continuation of src lines 248-273 applied to the actual polling response —
what the source would return had the closure returned its result. -/
theorem get_completed_raises_type_error :
    get env0 collab0 ual0 false =
      .error (.typeError "NoneType object is not subscriptable") ∧
    getAfterPoll env0 collab0 ual0 false "op-get" completedResponse =
      .ok { assertionId := "0xlatest", assertion := ["quad1"], operationId := "op-get",
            status := .completed } := by
  exact ⟨rfl, rfl⟩

/-- C4: with `validate=true` and a Completed Get operation, `get` raises
`TypeError` on src line 248 before the Merkle check of src lines 253-259 is
ever reached — both when the recomputed root would mismatch the ledger id
(first conjunct: no `InvalidAsset` is raised) and when it would match
(second conjunct).  The remaining conjuncts show the unreachable
continuation itself behaving as the claim describes: `InvalidAsset`
carrying the ledger id and recomputed root on mismatch, success on
equality. -/
theorem get_validate_unreachable_merkle_check :
    get env0 collab0 ual0 true =
      .error (.typeError "NoneType object is not subscriptable") ∧
    get envMatch collab0 ual0 true =
      .error (.typeError "NoneType object is not subscriptable") ∧
    getAfterPoll env0 collab0 ual0 true "op-get" completedResponse =
      .error (.invalidAsset "0xlatest" "root-quad1") ∧
    getAfterPoll envMatch collab0 ual0 true "op-get" completedResponse =
      .ok { assertionId := "root-quad1", assertion := ["quad1"], operationId := "op-get",
            status := .completed } := by
  exact ⟨rfl, rfl, rfl, rfl⟩

end DKG
